import Mathlib

/-!
# CORS middleware (`nerva-server/cors`)

A shallow embedding of `includes/CorsTypes.hpp` and `src/Cors.cpp`, followed by
theorems about the request-handling protocol.

Conventions of the embedding.

* `std::string` is `String`; `s.empty()` is `s = ""`.
* `std::unordered_set<std::string>` is a `List String` read as the elements of
  the set in iteration order.  `insert` leaves the list alone when the element
  is already present, `erase` removes the element, `find(x) != end()` is
  `x ∈ xs`.
* A member function that assigns to a member returns the new `Cors` value.
* `Http::Request` and `Http::Response` belong to the host HTTP library; they
  are modelled from the interface the middleware consumes.
* The continuation `next` is the effect of the rest of the pipeline on the
  shared response object.
-/

namespace Nerva

/-! ## `CorsTypes.hpp` -/

/-- The decision strategy, `enum class CorsPolicy`. -/
inductive CorsPolicy where
  | ALLOW_ALL
  | ALLOW_SPECIFIC
  | ALLOW_SAME_ORIGIN
  | BLOCK_ALL
  deriving DecidableEq, Repr

/-- The configuration record, `struct CorsConfig`. -/
structure CorsConfig where
  origins : List String
  methods : List String
  allowHeaders : List String
  exposeHeaders : List String
  credentials : Bool
  maxAge : Int
  deriving DecidableEq, Repr

/-- The default constructor `CorsConfig::CorsConfig()`. -/
def CorsConfig.default : CorsConfig where
  origins := []
  methods := ["GET", "POST", "PUT", "DELETE", "OPTIONS", "PATCH"]
  allowHeaders := ["Content-Type", "Authorization", "Accept", "Origin"]
  exposeHeaders := ["Content-Length", "Content-Type"]
  credentials := false
  maxAge := 86400

/-! ## The host request and response -/

/-- Modelled from the spec: the host library's `Http::Request`, of which the
middleware uses `request.method` and `request.getHeader(name)`. -/
structure Request where
  method : String
  headers : List (String × String)
  deriving DecidableEq, Repr

/-- Modelled from the spec: `request.getHeader(name)`, the value of the header
or the empty string if it is absent. -/
def Request.getHeader (req : Request) (name : String) : String :=
  match req.headers.find? (fun p => p.1 = name) with
  | some p => p.2
  | none => ""

/-- Modelled from the spec: the host library's `Http::Response`, of which the
middleware uses `setHeader`, the settable `statusCode` and the terminating
status-and-message write. -/
structure Response where
  statusCode : Int
  headers : List (String × String)
  body : String
  deriving DecidableEq, Repr

/-- Modelled from the spec: `response.setHeader(name, value)`, after which the
header `name` has the value `value`. -/
def Response.setHeader (res : Response) (name value : String) : Response :=
  { res with headers := (name, value) :: res.headers.filter (fun p => p.1 ≠ name) }

/-- The value of a response header, `none` when the response does not carry it. -/
def Response.header (res : Response) (name : String) : Option String :=
  (res.headers.find? (fun p => p.1 = name)).map Prod.snd

/-- Modelled from the spec: `res << status << message`, which terminates the
response with a status and a message body. -/
def Response.send (res : Response) (status : Int) (message : String) : Response :=
  { res with statusCode := status, body := message }

/-! ## String and set helpers of the C++ standard library -/

/-- The call `std::string::pop_back`: drops the last character. -/
def pop_back (s : String) : String := ⟨s.data.dropLast⟩

/-- The call `std::unordered_set::insert`: no effect when the element is present. -/
def setInsert (xs : List String) (x : String) : List String :=
  if x ∈ xs then xs else x :: xs

/-- The call `std::unordered_set::erase(key)`. -/
def setErase (xs : List String) (x : String) : List String :=
  xs.filter (fun y => y ≠ x)

/-- The loop `for (x : set) stream << x << ", "` followed by the two guarded
`pop_back` calls, as it occurs three times in `setCorsHeaders`. -/
def joinSet (xs : List String) : String :=
  let str := xs.foldl (fun acc x => acc ++ x ++ ", ") ""
  if str ≠ "" then pop_back (pop_back str) else str

/-! ## `Cors.cpp` -/

/-- The middleware state: the private members `config` and `policy`. -/
structure Cors where
  config : CorsConfig
  policy : CorsPolicy
  deriving DecidableEq, Repr

namespace Cors

/-- The member `Cors::allowAllOrigins`. -/
def allowAllOrigins (c : Cors) : Cors :=
  { c with config := { c.config with origins := setInsert [] "*" } }

/-- The constructor `Cors::Cors()`. -/
def new : Cors :=
  allowAllOrigins { config := CorsConfig.default, policy := .ALLOW_ALL }

/-- The constructor `Cors::Cors(const CorsConfig&)`. -/
def ofConfig (config : CorsConfig) : Cors :=
  { config := config, policy := .ALLOW_SPECIFIC }

/-- The constructor `Cors::Cors(CorsPolicy)`. -/
def ofPolicy (policy : CorsPolicy) : Cors :=
  let c : Cors := { config := CorsConfig.default, policy := policy }
  match policy with
  | .ALLOW_ALL => allowAllOrigins c
  | .ALLOW_SAME_ORIGIN => c
  | .BLOCK_ALL => c
  | .ALLOW_SPECIFIC => c

/-- The member `Cors::setConfig`. -/
def setConfig (c : Cors) (newConfig : CorsConfig) : Cors :=
  { c with config := newConfig }

/-- The member `Cors::setPolicy`. -/
def setPolicy (c : Cors) (newPolicy : CorsPolicy) : Cors :=
  let c1 : Cors := { c with policy := newPolicy }
  if c1.policy = .ALLOW_ALL then allowAllOrigins c1 else c1

/-- The member `Cors::allowOrigin`. -/
def allowOrigin (c : Cors) (origin : String) : Cors :=
  { c with config := { c.config with origins := setInsert c.config.origins origin } }

/-- The member `Cors::allowOrigins`. -/
def allowOrigins (c : Cors) (origins : List String) : Cors :=
  { c with config := { c.config with origins := origins.foldl setInsert c.config.origins } }

/-- The member `Cors::blockAllOrigins`. -/
def blockAllOrigins (c : Cors) : Cors :=
  { c with config := { c.config with origins := [] } }

/-- The member `Cors::removeOrigin`. -/
def removeOrigin (c : Cors) (origin : String) : Cors :=
  { c with config := { c.config with origins := setErase c.config.origins origin } }

/-- The member `Cors::clearOrigins`. -/
def clearOrigins (c : Cors) : Cors :=
  { c with config := { c.config with origins := [] } }

/-- The member `Cors::allowMethod`. -/
def allowMethod (c : Cors) (method : String) : Cors :=
  { c with config := { c.config with methods := setInsert c.config.methods method } }

/-- The member `Cors::allowMethods`. -/
def allowMethods (c : Cors) (methods : List String) : Cors :=
  { c with config := { c.config with methods := methods.foldl setInsert c.config.methods } }

/-- The member `Cors::removeMethod`. -/
def removeMethod (c : Cors) (method : String) : Cors :=
  { c with config := { c.config with methods := setErase c.config.methods method } }

/-- The member `Cors::allowHeader`. -/
def allowHeader (c : Cors) (header : String) : Cors :=
  { c with config :=
      { c.config with allowHeaders := setInsert c.config.allowHeaders header } }

/-- The member `Cors::allowHeaders`. -/
def allowHeaders (c : Cors) (headers : List String) : Cors :=
  { c with config :=
      { c.config with allowHeaders := headers.foldl setInsert c.config.allowHeaders } }

/-- The member `Cors::exposeHeader`. -/
def exposeHeader (c : Cors) (header : String) : Cors :=
  { c with config :=
      { c.config with exposeHeaders := setInsert c.config.exposeHeaders header } }

/-- The member `Cors::exposeHeaders`. -/
def exposeHeaders (c : Cors) (headers : List String) : Cors :=
  { c with config :=
      { c.config with exposeHeaders := headers.foldl setInsert c.config.exposeHeaders } }

/-- The member `Cors::setCredentials`. -/
def setCredentials (c : Cors) (enabled : Bool) : Cors :=
  { c with config := { c.config with credentials := enabled } }

/-- The member `Cors::setMaxAge`. -/
def setMaxAge (c : Cors) (seconds : Int) : Cors :=
  { c with config := { c.config with maxAge := seconds } }

/-- The member `Cors::isOriginAllowed`. -/
def isOriginAllowed (c : Cors) (origin : String) : Bool :=
  if origin = "" then true
  else decide ("*" ∈ c.config.origins) || decide (origin ∈ c.config.origins)

/-- The member `Cors::isMethodAllowed`. -/
def isMethodAllowed (c : Cors) (method : String) : Bool :=
  decide (method ∈ c.config.methods)

/-- The member `Cors::isHeaderAllowed`. -/
def isHeaderAllowed (c : Cors) (header : String) : Bool :=
  decide (header ∈ c.config.allowHeaders)

/-- The member `Cors::shouldAllowRequest`. -/
def shouldAllowRequest (c : Cors) (origin : String) : Bool :=
  match c.policy with
  | .ALLOW_ALL => true
  | .ALLOW_SPECIFIC => if origin = "" then true else c.isOriginAllowed origin
  | .ALLOW_SAME_ORIGIN => decide (origin = "")
  | .BLOCK_ALL => false

/-- The member `Cors::setCorsHeaders`; it assigns to no member, so only the
response is returned. -/
def setCorsHeaders (c : Cors) (res : Response) (origin : String) : Response :=
  let res1 :=
    if "*" ∈ c.config.origins then res.setHeader "Access-Control-Allow-Origin" "*"
    else if origin = "" then res
    else res.setHeader "Access-Control-Allow-Origin" origin
  let res2 := res1.setHeader "Access-Control-Allow-Methods" (joinSet c.config.methods)
  let res3 := res2.setHeader "Access-Control-Allow-Headers" (joinSet c.config.allowHeaders)
  let res4 :=
    if c.config.credentials then res3.setHeader "Access-Control-Allow-Credentials" "true"
    else res3
  let res5 := res4.setHeader "Access-Control-Max-Age" (toString c.config.maxAge)
  if c.config.exposeHeaders ≠ [] then
    res5.setHeader "Access-Control-Expose-Headers" (joinSet c.config.exposeHeaders)
  else res5

/-- What one call of `Handle` leaves behind: the middleware state, the response
object and the number of times the continuation was invoked. -/
structure HandleResult where
  cors : Cors
  res : Response
  nextCalls : Nat

/-- The member `Cors::Handle`.  The continuation `next` acts on the response
object that the pipeline shares. -/
def Handle (c : Cors) (req : Request) (res : Response) (next : Response → Response) :
    HandleResult :=
  let origin := req.getHeader "Origin"
  if origin = "" then
    if req.method = "OPTIONS" then
      let res1 := c.setCorsHeaders res ""
      { cors := c, res := { res1 with statusCode := 204 }, nextCalls := 0 }
    else
      let res1 := c.setCorsHeaders res ""
      { cors := c, res := next res1, nextCalls := 1 }
  else if !c.shouldAllowRequest origin then
    { cors := c, res := res.send 403 "CORS: Origin not allowed", nextCalls := 0 }
  else if req.method = "OPTIONS" then
    let res1 := c.setCorsHeaders res origin
    { cors := c, res := { res1 with statusCode := 204 }, nextCalls := 0 }
  else
    let res1 := c.setCorsHeaders res origin
    { cors := c, res := next res1, nextCalls := 1 }

end Cors

/-! ## Concrete inputs used to exercise the theorems -/

/-- A configuration whose allow-set is the single origin `https://a.com`. -/
def configA : CorsConfig :=
  { CorsConfig.default with origins := ["https://a.com"] }

/-- A configuration whose allow-set holds both `*` and `https://a.com`. -/
def configStarA : CorsConfig :=
  { CorsConfig.default with origins := ["*", "https://a.com"] }

/-- A request with the given method and `Origin` header. -/
def requestFrom (method origin : String) : Request :=
  { method := method, headers := [("Origin", origin)] }

/-- A request with the given method and no `Origin` header. -/
def requestPlain (method : String) : Request :=
  { method := method, headers := [("Host", "localhost")] }

/-- A fresh response: status 200, no headers, empty body. -/
def freshResponse : Response :=
  { statusCode := 200, headers := [], body := "" }

/-! ## Reading a decimal integer -/

/-- The value of a non-empty string of decimal digits, `none` for anything else. -/
def parseDigits (cs : List Char) : Option Nat :=
  if cs ≠ [] ∧ cs.all Char.isDigit = true then
    some (cs.foldl (fun n c => n * 10 + (c.toNat - '0'.toNat)) 0)
  else none

/-- Parsing a string as a decimal integer: an optional leading minus sign
followed by decimal digits. -/
def parseDecimal (s : String) : Option Int :=
  if s.data.head? = some '-' then (parseDigits s.data.tail).map (fun v => -(v : Int))
  else (parseDigits s.data).map (fun v => (v : Int))

open Cors

/-! ## Lemmas on the response model -/

theorem find?_filter_ne (l : List (String × String)) (n m : String) (h : m ≠ n) :
    (l.filter (fun p => p.1 ≠ n)).find? (fun p => p.1 = m) =
      l.find? (fun p => p.1 = m) := by
  induction l with
  | nil => rfl
  | cons p ps ih =>
    by_cases hp : p.1 = n
    · have hpm : ¬ p.1 = m := fun e => h (e.symm.trans hp)
      rw [List.filter_cons_of_neg (by simpa using hp),
        List.find?_cons_of_neg _ (by simpa using hpm)]
      exact ih
    · rw [List.filter_cons_of_pos (by simpa using hp)]
      by_cases hpm : p.1 = m
      · rw [List.find?_cons_of_pos _ (by simpa using hpm),
          List.find?_cons_of_pos _ (by simpa using hpm)]
      · rw [List.find?_cons_of_neg _ (by simpa using hpm),
          List.find?_cons_of_neg _ (by simpa using hpm)]
        exact ih

theorem header_setHeader (res : Response) (n v m : String) :
    (res.setHeader n v).header m = if m = n then some v else res.header m := by
  by_cases h : m = n
  · subst h
    simp [Response.setHeader, Response.header]
  · have h2 : ¬ n = m := fun e => h e.symm
    simp only [Response.setHeader, Response.header, if_neg h]
    rw [List.find?_cons_of_neg _ (by simpa using h2), find?_filter_ne _ _ _ h]

theorem statusCode_setHeader (res : Response) (n v : String) :
    (res.setHeader n v).statusCode = res.statusCode := rfl

theorem body_setHeader (res : Response) (n v : String) :
    (res.setHeader n v).body = res.body := rfl

theorem statusCode_setCorsHeaders (c : Cors) (res : Response) (o : String) :
    (c.setCorsHeaders res o).statusCode = res.statusCode := by
  unfold setCorsHeaders
  repeat (first | split | simp only [statusCode_setHeader])

theorem body_setCorsHeaders (c : Cors) (res : Response) (o : String) :
    (c.setCorsHeaders res o).body = res.body := by
  unfold setCorsHeaders
  repeat (first | split | simp only [body_setHeader])

/-! ## Lemmas on `Handle` -/

theorem Handle_denied (c : Cors) (req : Request) (res : Response)
    (next : Response → Response) (hne : req.getHeader "Origin" ≠ "")
    (hdeny : c.shouldAllowRequest (req.getHeader "Origin") = false) :
    c.Handle req res next =
      { cors := c, res := res.send 403 "CORS: Origin not allowed", nextCalls := 0 } := by
  simp [Handle, hne, hdeny]

theorem Handle_empty (c : Cors) (req : Request) (res : Response)
    (next : Response → Response) (he : req.getHeader "Origin" = "") :
    c.Handle req res next =
      if req.method = "OPTIONS" then
        { cors := c, res := { c.setCorsHeaders res "" with statusCode := 204 },
          nextCalls := 0 }
      else { cors := c, res := next (c.setCorsHeaders res ""), nextCalls := 1 } := by
  simp [Handle, he]

theorem Handle_allowed (c : Cors) (req : Request) (res : Response)
    (next : Response → Response)
    (hallow : req.getHeader "Origin" = "" ∨
      c.shouldAllowRequest (req.getHeader "Origin") = true) :
    c.Handle req res next =
      if req.method = "OPTIONS" then
        { cors := c,
          res := { c.setCorsHeaders res (req.getHeader "Origin") with statusCode := 204 },
          nextCalls := 0 }
      else
        { cors := c, res := next (c.setCorsHeaders res (req.getHeader "Origin")),
          nextCalls := 1 } := by
  by_cases he : req.getHeader "Origin" = ""
  · rw [Handle_empty c req res next he, he]
  · rcases hallow with h | h
    · exact absurd h he
    · simp [Handle, he, h]

theorem header_withStatus (res : Response) (code : Int) (m : String) :
    Response.header { res with statusCode := code } m = res.header m := rfl

/-! ## Lemmas on `setCorsHeaders` -/

theorem header_setCorsHeaders_allowOrigin (c : Cors) (res : Response) (o : String) :
    (c.setCorsHeaders res o).header "Access-Control-Allow-Origin" =
      if "*" ∈ c.config.origins then some "*"
      else if o = "" then res.header "Access-Control-Allow-Origin"
      else some o := by
  unfold setCorsHeaders
  simp only [header_setHeader]
  split_ifs <;> simp_all [header_setHeader]

theorem header_setCorsHeaders_allowMethods (c : Cors) (res : Response) (o : String) :
    (c.setCorsHeaders res o).header "Access-Control-Allow-Methods" =
      some (joinSet c.config.methods) := by
  unfold setCorsHeaders
  simp only [header_setHeader]
  split_ifs <;> simp_all [header_setHeader]

theorem header_setCorsHeaders_allowHeaders (c : Cors) (res : Response) (o : String) :
    (c.setCorsHeaders res o).header "Access-Control-Allow-Headers" =
      some (joinSet c.config.allowHeaders) := by
  unfold setCorsHeaders
  simp only [header_setHeader]
  split_ifs <;> simp_all [header_setHeader]

theorem header_setCorsHeaders_credentials (c : Cors) (res : Response) (o : String) :
    (c.setCorsHeaders res o).header "Access-Control-Allow-Credentials" =
      if c.config.credentials = true then some "true"
      else res.header "Access-Control-Allow-Credentials" := by
  unfold setCorsHeaders
  simp only [header_setHeader]
  split_ifs <;> simp_all [header_setHeader]

theorem header_setCorsHeaders_maxAge (c : Cors) (res : Response) (o : String) :
    (c.setCorsHeaders res o).header "Access-Control-Max-Age" =
      some (toString c.config.maxAge) := by
  unfold setCorsHeaders
  simp only [header_setHeader]
  split_ifs <;> simp_all [header_setHeader]

theorem header_setCorsHeaders_exposeHeaders (c : Cors) (res : Response) (o : String) :
    (c.setCorsHeaders res o).header "Access-Control-Expose-Headers" =
      if c.config.exposeHeaders ≠ [] then some (joinSet c.config.exposeHeaders)
      else res.header "Access-Control-Expose-Headers" := by
  unfold setCorsHeaders
  simp only [header_setHeader]
  split_ifs <;> simp_all [header_setHeader]

/-! ## The decision predicates -/

/-- C1: `shouldAllowRequest` follows the policy table: under `ALLOW_ALL` it is
true; under `ALLOW_SPECIFIC` it is true exactly when the origin is empty or
`isOriginAllowed` holds; under `ALLOW_SAME_ORIGIN` it is true exactly when the
origin is empty; under `BLOCK_ALL` it is false. -/
theorem shouldAllowRequest_policy_table (config : CorsConfig) (o : String) :
    shouldAllowRequest { config := config, policy := .ALLOW_ALL } o = true ∧
    (shouldAllowRequest { config := config, policy := .ALLOW_SPECIFIC } o = true ↔
      (o = "" ∨ isOriginAllowed { config := config, policy := .ALLOW_SPECIFIC } o = true)) ∧
    (shouldAllowRequest { config := config, policy := .ALLOW_SAME_ORIGIN } o = true ↔
      o = "") ∧
    shouldAllowRequest { config := config, policy := .BLOCK_ALL } o = false := by
  refine ⟨rfl, ?_, ?_, rfl⟩
  · by_cases h : o = "" <;> simp [shouldAllowRequest, h]
  · simp [shouldAllowRequest]

/-- C2: `isOriginAllowed o` is true exactly when `o` is the empty string, or the
allow-set contains `*`, or the allow-set contains the string `o` itself; the
answer is the same under every policy. -/
theorem isOriginAllowed_iff (config : CorsConfig) (p q : CorsPolicy) (o : String) :
    (isOriginAllowed { config := config, policy := p } o = true ↔
      (o = "" ∨ "*" ∈ config.origins ∨ o ∈ config.origins)) ∧
    isOriginAllowed { config := config, policy := p } o =
      isOriginAllowed { config := config, policy := q } o := by
  refine ⟨?_, rfl⟩
  by_cases h : o = "" <;> simp [isOriginAllowed, h]

/-! ## Denial -/

/-- C3: when the `Origin` header is non-empty and `shouldAllowRequest` rejects it
(in particular under `ALLOW_SPECIFIC` with an allow-set holding neither `*` nor
that origin), `Handle` answers with status 403 and body
`CORS: Origin not allowed`, whatever the method, and does not invoke the
continuation. -/
theorem Handle_denies_rejected_origin (c : Cors) (req : Request) (res : Response)
    (next : Response → Response)
    (hne : req.getHeader "Origin" ≠ "")
    (hdeny : c.shouldAllowRequest (req.getHeader "Origin") = false ∨
      (c.policy = .ALLOW_SPECIFIC ∧ "*" ∉ c.config.origins ∧
        req.getHeader "Origin" ∉ c.config.origins)) :
    (c.Handle req res next).res.statusCode = 403 ∧
    (c.Handle req res next).res.body = "CORS: Origin not allowed" ∧
    (c.Handle req res next).nextCalls = 0 := by
  have h : c.shouldAllowRequest (req.getHeader "Origin") = false := by
    rcases hdeny with h | ⟨hp, hstar, ho⟩
    · exact h
    · simp [shouldAllowRequest, isOriginAllowed, hp, hne, hstar, ho]
  rw [Handle_denied c req res next hne h]
  exact ⟨rfl, rfl, rfl⟩

theorem Handle_denies_rejected_origin_witness :
    (requestFrom "OPTIONS" "https://b.com").getHeader "Origin" ≠ "" ∧
    ((Cors.ofConfig configA).policy = .ALLOW_SPECIFIC ∧
      "*" ∉ (Cors.ofConfig configA).config.origins ∧
      (requestFrom "OPTIONS" "https://b.com").getHeader "Origin" ∉
        (Cors.ofConfig configA).config.origins) ∧
    ((Cors.ofConfig configA).Handle (requestFrom "OPTIONS" "https://b.com")
        freshResponse id).res.statusCode = 403 ∧
    ((Cors.ofConfig configA).Handle (requestFrom "OPTIONS" "https://b.com")
        freshResponse id).res.body = "CORS: Origin not allowed" ∧
    ((Cors.ofConfig configA).Handle (requestFrom "OPTIONS" "https://b.com")
        freshResponse id).nextCalls = 0 :=
  ⟨by decide, by decide,
    Handle_denies_rejected_origin (Cors.ofConfig configA)
      (requestFrom "OPTIONS" "https://b.com") freshResponse id (by decide)
      (Or.inr (by decide))⟩

/-- C5: under `ALLOW_SAME_ORIGIN`, whatever the allow-set holds, a request with a
non-empty `Origin` header is denied: status 403 and the continuation is not
invoked. -/
theorem Handle_same_origin_denies (config : CorsConfig) (req : Request) (res : Response)
    (next : Response → Response) (hne : req.getHeader "Origin" ≠ "") :
    (Handle { config := config, policy := .ALLOW_SAME_ORIGIN } req res next).res.statusCode
      = 403 ∧
    (Handle { config := config, policy := .ALLOW_SAME_ORIGIN } req res next).nextCalls = 0 := by
  have h : shouldAllowRequest { config := config, policy := .ALLOW_SAME_ORIGIN }
      (req.getHeader "Origin") = false := by
    simp [shouldAllowRequest, hne]
  rw [Handle_denied _ req res next hne h]
  exact ⟨rfl, rfl⟩

theorem Handle_same_origin_denies_witness :
    (requestFrom "GET" "https://a.com").getHeader "Origin" ≠ "" ∧
    "*" ∈ configStarA.origins ∧ "https://a.com" ∈ configStarA.origins ∧
    (Handle { config := configStarA, policy := .ALLOW_SAME_ORIGIN }
      (requestFrom "GET" "https://a.com") freshResponse id).res.statusCode = 403 ∧
    (Handle { config := configStarA, policy := .ALLOW_SAME_ORIGIN }
      (requestFrom "GET" "https://a.com") freshResponse id).nextCalls = 0 :=
  ⟨by decide, by decide, by decide,
    Handle_same_origin_denies configStarA (requestFrom "GET" "https://a.com")
      freshResponse id (by decide)⟩

/-- C6: under `BLOCK_ALL`, whatever the allow-set holds, a request with a
non-empty `Origin` header is denied with status 403 and the continuation is not
invoked. -/
theorem Handle_block_all_denies (config : CorsConfig) (req : Request) (res : Response)
    (next : Response → Response) (hne : req.getHeader "Origin" ≠ "") :
    (Handle { config := config, policy := .BLOCK_ALL } req res next).res.statusCode = 403 ∧
    (Handle { config := config, policy := .BLOCK_ALL } req res next).nextCalls = 0 := by
  have h : shouldAllowRequest { config := config, policy := .BLOCK_ALL }
      (req.getHeader "Origin") = false := rfl
  rw [Handle_denied _ req res next hne h]
  exact ⟨rfl, rfl⟩

theorem Handle_block_all_denies_witness :
    (requestFrom "POST" "https://a.com").getHeader "Origin" ≠ "" ∧
    (Handle { config := configStarA, policy := .BLOCK_ALL }
      (requestFrom "POST" "https://a.com") freshResponse id).res.statusCode = 403 ∧
    (Handle { config := configStarA, policy := .BLOCK_ALL }
      (requestFrom "POST" "https://a.com") freshResponse id).nextCalls = 0 :=
  ⟨by decide,
    Handle_block_all_denies configStarA (requestFrom "POST" "https://a.com")
      freshResponse id (by decide)⟩

/-! ## Preflight -/

/-- C4, the claim as stated fails: with policy `ALLOW_SPECIFIC` and an allow-set
holding both `*` and `https://a.com`, the preflight from `https://a.com` is
answered with `Access-Control-Allow-Origin: *`, not with the origin. -/
theorem Handle_preflight_echo_counterexample :
    (Cors.ofConfig configStarA).policy = .ALLOW_SPECIFIC ∧
    "https://a.com" ∈ (Cors.ofConfig configStarA).config.origins ∧
    "https://a.com" ≠ "" ∧
    (requestFrom "OPTIONS" "https://a.com").method = "OPTIONS" ∧
    (requestFrom "OPTIONS" "https://a.com").getHeader "Origin" = "https://a.com" ∧
    ((Cors.ofConfig configStarA).Handle (requestFrom "OPTIONS" "https://a.com")
        freshResponse id).res.header "Access-Control-Allow-Origin" = some "*" ∧
    ((Cors.ofConfig configStarA).Handle (requestFrom "OPTIONS" "https://a.com")
        freshResponse id).res.header "Access-Control-Allow-Origin" ≠
      some "https://a.com" := by
  decide

/-- C4, amended: with policy `ALLOW_SPECIFIC` and an allow-set that contains the
non-empty origin `o`, `Handle` on an `OPTIONS` request with `Origin` `o` sets
status 204, does not invoke the continuation, and leaves
`Access-Control-Allow-Origin` equal to `*` when the allow-set contains `*` and
equal to `o` otherwise. -/
theorem Handle_preflight (c : Cors) (req : Request) (res : Response)
    (next : Response → Response)
    (hp : c.policy = .ALLOW_SPECIFIC)
    (hne : req.getHeader "Origin" ≠ "")
    (hmem : req.getHeader "Origin" ∈ c.config.origins)
    (hm : req.method = "OPTIONS") :
    (c.Handle req res next).res.statusCode = 204 ∧
    (c.Handle req res next).res.header "Access-Control-Allow-Origin" =
      some (if "*" ∈ c.config.origins then "*" else req.getHeader "Origin") ∧
    (c.Handle req res next).nextCalls = 0 := by
  have h : c.shouldAllowRequest (req.getHeader "Origin") = true := by
    simp [shouldAllowRequest, isOriginAllowed, hp, hne, hmem]
  rw [Handle_allowed c req res next (Or.inr h), if_pos hm]
  refine ⟨rfl, ?_, rfl⟩
  rw [header_withStatus, header_setCorsHeaders_allowOrigin]
  by_cases hs : "*" ∈ c.config.origins
  · simp [hs]
  · simp [hs, hne]

theorem Handle_preflight_witness :
    (Cors.ofConfig configA).policy = .ALLOW_SPECIFIC ∧
    (requestFrom "OPTIONS" "https://a.com").getHeader "Origin" ≠ "" ∧
    (requestFrom "OPTIONS" "https://a.com").getHeader "Origin" ∈
      (Cors.ofConfig configA).config.origins ∧
    (requestFrom "OPTIONS" "https://a.com").method = "OPTIONS" ∧
    ((Cors.ofConfig configA).Handle (requestFrom "OPTIONS" "https://a.com")
        freshResponse id).res.statusCode = 204 ∧
    ((Cors.ofConfig configA).Handle (requestFrom "OPTIONS" "https://a.com")
        freshResponse id).res.header "Access-Control-Allow-Origin" =
      some (if "*" ∈ (Cors.ofConfig configA).config.origins then "*"
        else (requestFrom "OPTIONS" "https://a.com").getHeader "Origin") ∧
    ((Cors.ofConfig configA).Handle (requestFrom "OPTIONS" "https://a.com")
        freshResponse id).nextCalls = 0 :=
  ⟨by decide, by decide, by decide, by decide,
    Handle_preflight (Cors.ofConfig configA) (requestFrom "OPTIONS" "https://a.com")
      freshResponse id (by decide) (by decide) (by decide) (by decide)⟩

/-! ## Requests without an `Origin` header -/

/-- C7: when the request carries no `Origin` header, under every policy and
configuration, `Handle` takes no denial path: it emits the CORS headers with an
empty origin, which leaves status and body as they were and leaves
`Access-Control-Allow-Methods`, `Access-Control-Allow-Headers` and
`Access-Control-Max-Age` present; then for method `OPTIONS` it sets status 204
without invoking the continuation, and for every other method it invokes the
continuation exactly once on the response whose status it has not touched. -/
theorem Handle_empty_origin (c : Cors) (req : Request) (res : Response)
    (next : Response → Response) (he : req.getHeader "Origin" = "") :
    (c.setCorsHeaders res "").statusCode = res.statusCode ∧
    (c.setCorsHeaders res "").body = res.body ∧
    (c.setCorsHeaders res "").header "Access-Control-Allow-Methods" =
      some (joinSet c.config.methods) ∧
    (c.setCorsHeaders res "").header "Access-Control-Allow-Headers" =
      some (joinSet c.config.allowHeaders) ∧
    (c.setCorsHeaders res "").header "Access-Control-Max-Age" =
      some (toString c.config.maxAge) ∧
    ((req.method = "OPTIONS" ∧
        (c.Handle req res next).res = { c.setCorsHeaders res "" with statusCode := 204 } ∧
        (c.Handle req res next).nextCalls = 0) ∨
      (req.method ≠ "OPTIONS" ∧
        (c.Handle req res next).res = next (c.setCorsHeaders res "") ∧
        (c.Handle req res next).nextCalls = 1)) := by
  refine ⟨statusCode_setCorsHeaders c res "", body_setCorsHeaders c res "",
    header_setCorsHeaders_allowMethods c res "", header_setCorsHeaders_allowHeaders c res "",
    header_setCorsHeaders_maxAge c res "", ?_⟩
  rw [Handle_empty c req res next he]
  by_cases hm : req.method = "OPTIONS"
  · left
    rw [if_pos hm]
    exact ⟨hm, rfl, rfl⟩
  · right
    rw [if_neg hm]
    exact ⟨hm, rfl, rfl⟩

theorem Handle_empty_origin_witness :
    (requestPlain "GET").getHeader "Origin" = "" ∧
    (requestPlain "GET").method ≠ "OPTIONS" ∧
    (Handle { config := configA, policy := .BLOCK_ALL } (requestPlain "GET")
      freshResponse id).nextCalls = 1 ∧
    (Handle { config := configA, policy := .BLOCK_ALL } (requestPlain "GET")
      freshResponse id).res.statusCode = 200 ∧
    (Cors.setCorsHeaders { config := configA, policy := .BLOCK_ALL }
      freshResponse "").header "Access-Control-Allow-Methods" =
        some (joinSet configA.methods) := by
  have h := Handle_empty_origin { config := configA, policy := .BLOCK_ALL }
    (requestPlain "GET") freshResponse id (by decide)
  refine ⟨by decide, by decide, ?_, ?_, h.2.2.1⟩
  · rcases h.2.2.2.2.2 with ⟨hm, _, _⟩ | ⟨_, _, hc⟩
    · exact absurd hm (by decide)
    · exact hc
  · rcases h.2.2.2.2.2 with ⟨hm, _, _⟩ | ⟨_, hr, _⟩
    · exact absurd hm (by decide)
    · rw [hr]
      exact h.1

/-! ## The continuation -/

/-- C8: `Handle` invokes the continuation at most once; it invokes it exactly
once if and only if the method is not `OPTIONS` and the `Origin` header is empty
or accepted by `shouldAllowRequest`; and whenever it is invoked, it runs on the
response on which the CORS headers have already been emitted. -/
theorem Handle_continuation (c : Cors) (req : Request) (res : Response)
    (next : Response → Response) :
    (c.Handle req res next).nextCalls ≤ 1 ∧
    ((c.Handle req res next).nextCalls = 1 ↔
      (req.method ≠ "OPTIONS" ∧
        (req.getHeader "Origin" = "" ∨
          c.shouldAllowRequest (req.getHeader "Origin") = true))) ∧
    ((c.Handle req res next).nextCalls = 0 ∨
      (c.Handle req res next).res =
        next (c.setCorsHeaders res (req.getHeader "Origin"))) := by
  by_cases hallow : req.getHeader "Origin" = "" ∨
      c.shouldAllowRequest (req.getHeader "Origin") = true
  · rw [Handle_allowed c req res next hallow]
    by_cases hm : req.method = "OPTIONS"
    · simp [hm]
    · simp [hm, hallow]
  · have hne : req.getHeader "Origin" ≠ "" := fun h => hallow (Or.inl h)
    have hdeny : c.shouldAllowRequest (req.getHeader "Origin") = false := by
      cases h : c.shouldAllowRequest (req.getHeader "Origin")
      · rfl
      · exact absurd (Or.inr h) hallow
    rw [Handle_denied c req res next hne hdeny]
    simp [hne, hdeny]

/-! ## Header emission -/

/-- C9: `setCorsHeaders res o` sets `Access-Control-Allow-Origin` to `*` when the
allow-set contains `*`; otherwise to exactly `o` when `o` is non-empty; otherwise
it leaves that header as it was on the incoming response. -/
theorem setCorsHeaders_allow_origin (c : Cors) (res : Response) (o : String) :
    (c.setCorsHeaders res o).header "Access-Control-Allow-Origin" =
      if "*" ∈ c.config.origins then some "*"
      else if o ≠ "" then some o
      else res.header "Access-Control-Allow-Origin" := by
  rw [header_setCorsHeaders_allowOrigin]
  by_cases hs : "*" ∈ c.config.origins
  · simp [hs]
  · by_cases ho : o = "" <;> simp [hs, ho]

/-- C10: on a request for which `Handle` emits headers (empty `Origin`, or an
`Origin` accepted by the policy) and a response that does not yet carry
`Access-Control-Allow-Credentials`, the response on which `Handle` has emitted
the headers carries that header with value `true` after `setCredentials true`
and does not carry it after `setCredentials false`; its value is never `false`;
the same holds of the final response when the continuation leaves that header
alone.  `setCredentials` changes the credentials flag and nothing else. -/
theorem Handle_credentials_toggle (c : Cors) (enabled : Bool) (req : Request)
    (res : Response) (next : Response → Response)
    (hallow : req.getHeader "Origin" = "" ∨
      c.shouldAllowRequest (req.getHeader "Origin") = true)
    (hfresh : res.header "Access-Control-Allow-Credentials" = none) :
    ((c.setCredentials enabled).Handle req res next).res =
      (if req.method = "OPTIONS" then
        { (c.setCredentials enabled).setCorsHeaders res (req.getHeader "Origin") with
          statusCode := 204 }
      else next ((c.setCredentials enabled).setCorsHeaders res (req.getHeader "Origin"))) ∧
    ((c.setCredentials enabled).setCorsHeaders res (req.getHeader "Origin")).header
        "Access-Control-Allow-Credentials" = (if enabled = true then some "true" else none) ∧
    ((c.setCredentials enabled).setCorsHeaders res (req.getHeader "Origin")).header
        "Access-Control-Allow-Credentials" ≠ some "false" ∧
    ((∀ r : Response, (next r).header "Access-Control-Allow-Credentials" =
        r.header "Access-Control-Allow-Credentials") →
      ((c.setCredentials enabled).Handle req res next).res.header
        "Access-Control-Allow-Credentials" = (if enabled = true then some "true" else none)) ∧
    (c.setCredentials enabled).policy = c.policy ∧
    (c.setCredentials enabled).config.origins = c.config.origins ∧
    (c.setCredentials enabled).config.methods = c.config.methods ∧
    (c.setCredentials enabled).config.allowHeaders = c.config.allowHeaders ∧
    (c.setCredentials enabled).config.exposeHeaders = c.config.exposeHeaders ∧
    (c.setCredentials enabled).config.maxAge = c.config.maxAge ∧
    (c.setCredentials enabled).config.credentials = enabled := by
  have hallow2 : req.getHeader "Origin" = "" ∨
      (c.setCredentials enabled).shouldAllowRequest (req.getHeader "Origin") = true :=
    hallow
  have hout := Handle_allowed (c.setCredentials enabled) req res next hallow2
  have hhdr : ((c.setCredentials enabled).setCorsHeaders res
      (req.getHeader "Origin")).header "Access-Control-Allow-Credentials" =
      (if enabled = true then some "true" else none) := by
    rw [header_setCorsHeaders_credentials, hfresh]
    rfl
  refine ⟨?_, hhdr, ?_, ?_, rfl, rfl, rfl, rfl, rfl, rfl, rfl⟩
  · rw [hout]
    by_cases hm : req.method = "OPTIONS" <;> simp [hm]
  · rw [hhdr]
    cases enabled <;> simp
  · intro hnext
    rw [hout]
    by_cases hm : req.method = "OPTIONS"
    · rw [if_pos hm]
      exact hhdr
    · rw [if_neg hm]
      exact (hnext _).trans hhdr

theorem Handle_credentials_toggle_witness :
    ((requestFrom "GET" "https://a.com").getHeader "Origin" = "" ∨
      (Cors.ofConfig configA).shouldAllowRequest
        ((requestFrom "GET" "https://a.com").getHeader "Origin") = true) ∧
    freshResponse.header "Access-Control-Allow-Credentials" = none ∧
    (((Cors.ofConfig configA).setCredentials true).Handle
      (requestFrom "GET" "https://a.com") freshResponse id).res.header
        "Access-Control-Allow-Credentials" = some "true" ∧
    (((Cors.ofConfig configA).setCredentials false).Handle
      (requestFrom "GET" "https://a.com") freshResponse id).res.header
        "Access-Control-Allow-Credentials" = none :=
  ⟨Or.inr (by decide), by decide,
    (Handle_credentials_toggle (Cors.ofConfig configA) true
      (requestFrom "GET" "https://a.com") freshResponse id (Or.inr (by decide))
      (by decide)).2.2.2.1 (fun _ => rfl),
    (Handle_credentials_toggle (Cors.ofConfig configA) false
      (requestFrom "GET" "https://a.com") freshResponse id (Or.inr (by decide))
      (by decide)).2.2.2.1 (fun _ => rfl)⟩

/-! ## Decimal rendering of `maxAge` -/

theorem digitChar_spec : ∀ d, d < 10 →
    (Nat.digitChar d).isDigit = true ∧ (Nat.digitChar d).toNat - '0'.toNat = d := by
  decide

theorem toDigitsCore_spec : ∀ (fuel n : Nat) (ds : List Char), n < fuel →
    ∃ pre, Nat.toDigitsCore 10 fuel n ds = pre ++ ds ∧ pre ≠ [] ∧
      pre.all Char.isDigit = true ∧
      pre.foldl (fun n c => n * 10 + (c.toNat - '0'.toNat)) 0 = n := by
  intro fuel
  induction fuel with
  | zero => intro n ds h; exact absurd h (Nat.not_lt_zero n)
  | succ fuel ih =>
    intro n ds h
    have hd := digitChar_spec (n % 10) (Nat.mod_lt n (by decide))
    unfold Nat.toDigitsCore
    by_cases h0 : n / 10 = 0
    · refine ⟨[Nat.digitChar (n % 10)], ?_, by simp, ?_, ?_⟩
      · simp [h0]
      · simp [hd.1]
      · have hlt : n < 10 := by omega
        have h2 := hd.2
        rw [Nat.mod_eq_of_lt hlt] at h2 ⊢
        simpa using h2
    · have hlt : n / 10 < fuel := by omega
      obtain ⟨pre, hpre, _, hall, hval⟩ := ih (n / 10) (Nat.digitChar (n % 10) :: ds) hlt
      refine ⟨pre ++ [Nat.digitChar (n % 10)], ?_, by simp, ?_, ?_⟩
      · simp [h0, hpre]
      · simp [List.all_append, hall, hd.1]
      · rw [List.foldl_append, hval]
        simp only [List.foldl_cons, List.foldl_nil, hd.2]
        omega

theorem parseDigits_toDigits (n : Nat) :
    (Nat.toDigits 10 n ≠ [] ∧ (Nat.toDigits 10 n).all Char.isDigit = true) ∧
    parseDigits (Nat.toDigits 10 n) = some n := by
  obtain ⟨pre, hpre, hne, hall, hval⟩ := toDigitsCore_spec (n + 1) n [] (Nat.lt_succ_self n)
  have he : Nat.toDigits 10 n = pre := by
    unfold Nat.toDigits
    rw [hpre, List.append_nil]
  rw [he]
  refine ⟨⟨hne, hall⟩, ?_⟩
  unfold parseDigits
  rw [if_pos ⟨hne, hall⟩, hval]

theorem head?_toDigits_ne_minus (n : Nat) : (Nat.toDigits 10 n).head? ≠ some '-' := by
  obtain ⟨⟨hne, hall⟩, _⟩ := parseDigits_toDigits n
  cases hl : Nat.toDigits 10 n with
  | nil => exact absurd hl hne
  | cons c cs =>
    rw [hl] at hall
    intro hc
    simp only [List.head?_cons, Option.some.injEq] at hc
    subst hc
    simp at hall

theorem parseDecimal_toString (n : Int) : parseDecimal (toString n) = some n := by
  cases n with
  | ofNat m =>
    have hs : (toString (Int.ofNat m)).data = Nat.toDigits 10 m := rfl
    unfold parseDecimal
    rw [hs, if_neg (head?_toDigits_ne_minus m), (parseDigits_toDigits m).2]
    rfl
  | negSucc m =>
    have hs : (toString (Int.negSucc m)).data = '-' :: Nat.toDigits 10 (m + 1) := rfl
    unfold parseDecimal
    rw [hs]
    simp only [List.head?_cons, List.tail_cons, if_true]
    rw [(parseDigits_toDigits (m + 1)).2]
    rfl

/-- C11: after `setMaxAge n`, for every integer `n`, header emission sets
`Access-Control-Max-Age` to the decimal string of `n`, on `setCorsHeaders` and
hence on every request that `Handle` does not deny; for every configuration the
emitted value parses back, as a decimal integer, to the configured `maxAge`; and
on a default configuration without a `setMaxAge` call the value is `86400`. -/
theorem setMaxAge_round_trip (c : Cors) (n : Int) (req : Request) (res : Response)
    (o : String) (next : Response → Response) :
    ((c.setMaxAge n).setCorsHeaders res o).header "Access-Control-Max-Age" =
      some (toString n) ∧
    parseDecimal (toString n) = some n ∧
    ((c.setCorsHeaders res o).header "Access-Control-Max-Age").bind parseDecimal =
      some c.config.maxAge ∧
    (Cors.new.setCorsHeaders res o).header "Access-Control-Max-Age" = some "86400" ∧
    ((Cors.ofConfig CorsConfig.default).setCorsHeaders res o).header
      "Access-Control-Max-Age" = some "86400" ∧
    ((req.getHeader "Origin" ≠ "" ∧
        (c.setMaxAge n).shouldAllowRequest (req.getHeader "Origin") = false) ∨
      (((c.setMaxAge n).Handle req res next).res =
          (if req.method = "OPTIONS" then
            { (c.setMaxAge n).setCorsHeaders res (req.getHeader "Origin") with
              statusCode := 204 }
          else next ((c.setMaxAge n).setCorsHeaders res (req.getHeader "Origin"))) ∧
        ((c.setMaxAge n).setCorsHeaders res (req.getHeader "Origin")).header
          "Access-Control-Max-Age" = some (toString n))) := by
  refine ⟨header_setCorsHeaders_maxAge _ res o, parseDecimal_toString n, ?_,
    header_setCorsHeaders_maxAge _ res o, header_setCorsHeaders_maxAge _ res o, ?_⟩
  · rw [header_setCorsHeaders_maxAge]
    exact parseDecimal_toString c.config.maxAge
  · by_cases hallow : req.getHeader "Origin" = "" ∨
        (c.setMaxAge n).shouldAllowRequest (req.getHeader "Origin") = true
    · right
      refine ⟨?_, header_setCorsHeaders_maxAge _ res _⟩
      rw [Handle_allowed _ req res next hallow]
      by_cases hm : req.method = "OPTIONS" <;> simp [hm]
    · left
      refine ⟨fun h => hallow (Or.inl h), ?_⟩
      cases h : (c.setMaxAge n).shouldAllowRequest (req.getHeader "Origin")
      · rfl
      · exact absurd (Or.inr h) hallow

/-! ## List-valued headers -/

theorem pop_back_pop_back_append (s : String) : pop_back (pop_back (s ++ ", ")) = s := by
  apply String.ext
  simp [pop_back, String.data_append]

theorem append_comma_ne_empty (s : String) : s ++ ", " ≠ "" := by
  intro h
  have hd := congrArg String.data h
  simp [String.data_append] at hd

theorem joinLoop_eq (xs : List String) : ∀ acc : String,
    xs.foldl (fun acc x => acc ++ x ++ ", ") (acc ++ ", ") =
      String.intercalate.go acc ", " xs ++ ", " := by
  induction xs with
  | nil => intro acc; rfl
  | cons b bs ih =>
    intro acc
    have h := ih (acc ++ ", " ++ b)
    simpa [List.foldl_cons, String.intercalate.go] using h

theorem joinSet_eq_intercalate (xs : List String) : joinSet xs = ", ".intercalate xs := by
  cases xs with
  | nil => simp [joinSet, String.intercalate]
  | cons a as =>
    have h : (a :: as).foldl (fun acc x => acc ++ x ++ ", ") "" =
        String.intercalate.go a ", " as ++ ", " := by
      rw [List.foldl_cons, String.empty_append]
      exact joinLoop_eq as a
    unfold joinSet
    simp only [h, String.intercalate]
    rw [if_pos (append_comma_ne_empty _), pop_back_pop_back_append]

theorem count_of_nodup (xs : List String) (h : xs.Nodup) (x : String) :
    xs.count x = if x ∈ xs then 1 else 0 := by
  by_cases hx : x ∈ xs
  · rw [if_pos hx]
    exact List.count_eq_one_of_mem h hx
  · rw [if_neg hx]
    exact List.count_eq_zero_of_not_mem hx

/-- C12: the append-then-drop-two-characters loop of `setCorsHeaders` equals
joining the enumeration of the set with `, ` (the empty string for the empty
set).  So `Access-Control-Allow-Methods` is the methods set joined with `, ` and
`Access-Control-Allow-Headers` the allow-headers set joined with `, `;
`Access-Control-Expose-Headers` is the expose-headers set joined with `, ` when
that set is non-empty and is not set at all when it is empty.  In each joined
enumeration every element of the set occurs exactly once and nothing else
occurs, the enumeration of a set being free of repetitions. -/
theorem setCorsHeaders_list_headers (c : Cors) (res : Response) (o : String)
    (hm : c.config.methods.Nodup) (hh : c.config.allowHeaders.Nodup)
    (he : c.config.exposeHeaders.Nodup) :
    (∀ xs : List String, joinSet xs = ", ".intercalate xs) ∧
    joinSet [] = "" ∧
    (c.setCorsHeaders res o).header "Access-Control-Allow-Methods" =
      some (", ".intercalate c.config.methods) ∧
    (∀ m, c.config.methods.count m = if c.isMethodAllowed m = true then 1 else 0) ∧
    (c.setCorsHeaders res o).header "Access-Control-Allow-Headers" =
      some (", ".intercalate c.config.allowHeaders) ∧
    (∀ h, c.config.allowHeaders.count h = if c.isHeaderAllowed h = true then 1 else 0) ∧
    (c.setCorsHeaders res o).header "Access-Control-Expose-Headers" =
      (if c.config.exposeHeaders = [] then res.header "Access-Control-Expose-Headers"
       else some (", ".intercalate c.config.exposeHeaders)) ∧
    (∀ h, c.config.exposeHeaders.count h = if h ∈ c.config.exposeHeaders then 1 else 0) := by
  refine ⟨joinSet_eq_intercalate, rfl, ?_, ?_, ?_, ?_, ?_, count_of_nodup _ he⟩
  · rw [header_setCorsHeaders_allowMethods, joinSet_eq_intercalate]
  · intro m
    rw [count_of_nodup _ hm]
    simp [isMethodAllowed]
  · rw [header_setCorsHeaders_allowHeaders, joinSet_eq_intercalate]
  · intro h
    rw [count_of_nodup _ hh]
    simp [isHeaderAllowed]
  · rw [header_setCorsHeaders_exposeHeaders, joinSet_eq_intercalate]
    by_cases hx : c.config.exposeHeaders = [] <;> simp [hx]

theorem setCorsHeaders_list_headers_witness :
    Cors.new.config.methods.Nodup ∧ Cors.new.config.allowHeaders.Nodup ∧
    Cors.new.config.exposeHeaders.Nodup ∧
    (Cors.new.setCorsHeaders freshResponse "").header "Access-Control-Allow-Methods" =
      some "GET, POST, PUT, DELETE, OPTIONS, PATCH" ∧
    (Cors.new.setCorsHeaders freshResponse "").header "Access-Control-Allow-Headers" =
      some "Content-Type, Authorization, Accept, Origin" ∧
    (Cors.new.setCorsHeaders freshResponse "").header "Access-Control-Expose-Headers" =
      some "Content-Length, Content-Type" :=
  ⟨by decide, by decide, by decide,
    (setCorsHeaders_list_headers Cors.new freshResponse "" (by decide) (by decide)
      (by decide)).2.2.1,
    (setCorsHeaders_list_headers Cors.new freshResponse "" (by decide) (by decide)
      (by decide)).2.2.2.2.1,
    (setCorsHeaders_list_headers Cors.new freshResponse "" (by decide) (by decide)
      (by decide)).2.2.2.2.2.2.1⟩

/-! ## Mutators and constructors -/

theorem setInsert_nodup (xs : List String) (x : String) (h : xs.Nodup) :
    (setInsert xs x).Nodup := by
  unfold setInsert
  by_cases hx : x ∈ xs
  · rw [if_pos hx]
    exact h
  · rw [if_neg hx]
    exact List.nodup_cons.mpr ⟨hx, h⟩

theorem setErase_nodup (xs : List String) (x : String) (h : xs.Nodup) :
    (setErase xs x).Nodup :=
  h.filter _

theorem mem_setInsert (xs : List String) (x y : String) :
    y ∈ setInsert xs x ↔ y = x ∨ y ∈ xs := by
  unfold setInsert
  by_cases hx : x ∈ xs
  · rw [if_pos hx]
    constructor
    · exact Or.inr
    · rintro (h | h)
      · exact h ▸ hx
      · exact h
  · rw [if_neg hx]
    exact List.mem_cons

theorem setInsert_idem (xs : List String) (x : String) :
    setInsert (setInsert xs x) x = setInsert xs x := by
  have h : x ∈ setInsert xs x := (mem_setInsert xs x x).mpr (Or.inl rfl)
  generalize setInsert xs x = ys at h ⊢
  unfold setInsert
  rw [if_pos h]

theorem setErase_absent (xs : List String) (x : String) (h : x ∉ xs) :
    setErase xs x = xs := by
  unfold setErase
  rw [List.filter_eq_self]
  intro a ha
  have hne : a ≠ x := fun e => h (e ▸ ha)
  simpa using hne

/-- C13: the set mutators are total and idempotent: `allowOrigin x` twice gives
the same state as once, and `removeOrigin x` leaves the state unchanged when `x`
is not in the allow-set; likewise `allowMethod` and `removeMethod` on the methods
set, and `allowHeader` and `exposeHeader` on their sets. -/
theorem mutators_idempotent (c : Cors) (x : String) :
    (c.allowOrigin x).allowOrigin x = c.allowOrigin x ∧
    (x ∉ c.config.origins → c.removeOrigin x = c) ∧
    (c.allowMethod x).allowMethod x = c.allowMethod x ∧
    (x ∉ c.config.methods → c.removeMethod x = c) ∧
    (c.allowHeader x).allowHeader x = c.allowHeader x ∧
    (c.exposeHeader x).exposeHeader x = c.exposeHeader x := by
  refine ⟨?_, ?_, ?_, ?_, ?_, ?_⟩
  · simp [allowOrigin, setInsert_idem]
  · intro h
    simp [removeOrigin, setErase_absent _ _ h]
  · simp [allowMethod, setInsert_idem]
  · intro h
    simp [removeMethod, setErase_absent _ _ h]
  · simp [allowHeader, setInsert_idem]
  · simp [exposeHeader, setInsert_idem]

theorem mutators_idempotent_witness :
    ((Cors.ofConfig configA).allowOrigin "https://b.com").allowOrigin "https://b.com" =
      (Cors.ofConfig configA).allowOrigin "https://b.com" ∧
    "https://b.com" ∉ (Cors.ofConfig configA).config.origins ∧
    (Cors.ofConfig configA).removeOrigin "https://b.com" = Cors.ofConfig configA :=
  ⟨(mutators_idempotent (Cors.ofConfig configA) "https://b.com").1, by decide,
    (mutators_idempotent (Cors.ofConfig configA) "https://b.com").2.1 (by decide)⟩

/-- C14: a default-constructed middleware has policy `ALLOW_ALL` and allow-set
exactly `*`; it allows every origin, through `isOriginAllowed` and through
`shouldAllowRequest`; and `isMethodAllowed m` holds exactly for the six methods
`GET`, `POST`, `PUT`, `DELETE`, `OPTIONS`, `PATCH`, so not for lower-case `get`. -/
theorem default_constructed (o m : String) :
    Cors.new.policy = .ALLOW_ALL ∧
    Cors.new.config.origins = ["*"] ∧
    Cors.new.isOriginAllowed o = true ∧
    Cors.new.shouldAllowRequest o = true ∧
    (Cors.new.isMethodAllowed m = true ↔
      (m = "GET" ∨ m = "POST" ∨ m = "PUT" ∨ m = "DELETE" ∨ m = "OPTIONS" ∨ m = "PATCH")) ∧
    Cors.new.isMethodAllowed "get" = false := by
  refine ⟨rfl, rfl, ?_, rfl, ?_, by decide⟩
  · have h : Cors.new.config.origins = ["*"] := rfl
    by_cases ho : o = "" <;> simp [isOriginAllowed, ho, h]
  · have h : Cors.new.config.methods = ["GET", "POST", "PUT", "DELETE", "OPTIONS", "PATCH"] :=
      rfl
    simp [isMethodAllowed, h]

/-- C15: `Cors(config)` has policy `ALLOW_SPECIFIC` and stores the supplied
configuration unchanged, so with an empty allow-set it accepts the empty origin
only; `Cors(policy)` has exactly the given policy and the default configuration,
whose allow-set is `*` for `ALLOW_ALL` and empty for the three other policies. -/
theorem constructors (config : CorsConfig) (p : CorsPolicy) (o : String)
    (req : Request) (res : Response) (next : Response → Response) :
    (Cors.ofConfig config).policy = .ALLOW_SPECIFIC ∧
    (Cors.ofConfig config).config = config ∧
    (Cors.ofConfig { config with origins := [] }).shouldAllowRequest o = decide (o = "") ∧
    (req.getHeader "Origin" = "" ∨
      (Cors.ofConfig { config with origins := [] }).Handle req res next =
        { cors := Cors.ofConfig { config with origins := [] },
          res := res.send 403 "CORS: Origin not allowed", nextCalls := 0 }) ∧
    (Cors.ofPolicy p).policy = p ∧
    (Cors.ofPolicy p).config.origins = (if p = .ALLOW_ALL then ["*"] else []) ∧
    (Cors.ofPolicy p).config.methods = ["GET", "POST", "PUT", "DELETE", "OPTIONS", "PATCH"] ∧
    (Cors.ofPolicy p).config.allowHeaders =
      ["Content-Type", "Authorization", "Accept", "Origin"] ∧
    (Cors.ofPolicy p).config.exposeHeaders = ["Content-Length", "Content-Type"] ∧
    (Cors.ofPolicy p).config.credentials = false ∧
    (Cors.ofPolicy p).config.maxAge = 86400 := by
  refine ⟨rfl, rfl, ?_, ?_, ?_, ?_, ?_, ?_, ?_, ?_, ?_⟩
  · by_cases ho : o = "" <;> simp [Cors.ofConfig, shouldAllowRequest, isOriginAllowed, ho]
  · by_cases he : req.getHeader "Origin" = ""
    · exact Or.inl he
    · right
      apply Handle_denied _ req res next he
      simp [Cors.ofConfig, shouldAllowRequest, isOriginAllowed, he]
  all_goals cases p <;> rfl

/-- C16: `setPolicy ALLOW_ALL` leaves the policy equal to `ALLOW_ALL` and the
allow-set equal to exactly `*`, whatever it held before, and leaves methods,
allow-headers, expose-headers, credentials and maxAge unchanged. -/
theorem setPolicy_allow_all (c : Cors) :
    (c.setPolicy .ALLOW_ALL).policy = .ALLOW_ALL ∧
    (c.setPolicy .ALLOW_ALL).config.origins = ["*"] ∧
    (c.setPolicy .ALLOW_ALL).config.methods = c.config.methods ∧
    (c.setPolicy .ALLOW_ALL).config.allowHeaders = c.config.allowHeaders ∧
    (c.setPolicy .ALLOW_ALL).config.exposeHeaders = c.config.exposeHeaders ∧
    (c.setPolicy .ALLOW_ALL).config.credentials = c.config.credentials ∧
    (c.setPolicy .ALLOW_ALL).config.maxAge = c.config.maxAge :=
  ⟨rfl, rfl, rfl, rfl, rfl, rfl, rfl⟩

/-! ## Policy and allow-set together -/

theorem shouldAllowRequest_congr (c1 c2 : Cors) (hp : c1.policy = c2.policy)
    (ho : ∀ x, x ∈ c1.config.origins ↔ x ∈ c2.config.origins) (o : String) :
    c1.shouldAllowRequest o = c2.shouldAllowRequest o := by
  unfold shouldAllowRequest isOriginAllowed
  rw [hp]
  simp only [ho]

theorem setCorsHeaders_policy (config : CorsConfig) (p q : CorsPolicy) (res : Response)
    (o : String) :
    setCorsHeaders { config := config, policy := p } res o =
      setCorsHeaders { config := config, policy := q } res o := rfl

/-- C17: when the allow-set contains `*`, `Handle` under `ALLOW_SPECIFIC` leaves
the same response and invokes the continuation as often as `Handle` under
`ALLOW_ALL` with the same configuration; no origin is rejected, the request is
never answered by the denial, and the headers emitted carry
`Access-Control-Allow-Origin: *`. -/
theorem wildcard_specific_as_allow_all (config : CorsConfig) (req : Request)
    (res : Response) (next : Response → Response) (hstar : "*" ∈ config.origins) :
    (Handle { config := config, policy := .ALLOW_SPECIFIC } req res next).res =
      (Handle { config := config, policy := .ALLOW_ALL } req res next).res ∧
    (Handle { config := config, policy := .ALLOW_SPECIFIC } req res next).nextCalls =
      (Handle { config := config, policy := .ALLOW_ALL } req res next).nextCalls ∧
    (∀ o, shouldAllowRequest { config := config, policy := .ALLOW_SPECIFIC } o = true) ∧
    (Handle { config := config, policy := .ALLOW_SPECIFIC } req res next).res =
      (if req.method = "OPTIONS" then
        { setCorsHeaders { config := config, policy := .ALLOW_SPECIFIC } res
            (req.getHeader "Origin") with statusCode := 204 }
      else next (setCorsHeaders { config := config, policy := .ALLOW_SPECIFIC } res
        (req.getHeader "Origin"))) ∧
    (setCorsHeaders { config := config, policy := .ALLOW_SPECIFIC } res
      (req.getHeader "Origin")).header "Access-Control-Allow-Origin" = some "*" := by
  have hall : ∀ o, shouldAllowRequest { config := config, policy := .ALLOW_SPECIFIC } o
      = true := by
    intro o
    by_cases ho : o = "" <;> simp [shouldAllowRequest, isOriginAllowed, ho, hstar]
  have h1 := Handle_allowed { config := config, policy := .ALLOW_SPECIFIC } req res next
    (Or.inr (hall _))
  have h2 := Handle_allowed { config := config, policy := .ALLOW_ALL } req res next
    (Or.inr rfl)
  refine ⟨?_, ?_, hall, ?_, ?_⟩
  · rw [h1, h2, setCorsHeaders_policy config .ALLOW_SPECIFIC .ALLOW_ALL]
    by_cases hm : req.method = "OPTIONS" <;> simp [hm]
  · rw [h1, h2]
    by_cases hm : req.method = "OPTIONS" <;> simp [hm]
  · rw [h1]
    by_cases hm : req.method = "OPTIONS" <;> simp [hm]
  · rw [header_setCorsHeaders_allowOrigin]
    simp [hstar]

theorem wildcard_specific_as_allow_all_witness :
    "*" ∈ configStarA.origins ∧
    (Handle { config := configStarA, policy := .ALLOW_SPECIFIC }
      (requestFrom "GET" "https://b.com") freshResponse id).res =
    (Handle { config := configStarA, policy := .ALLOW_ALL }
      (requestFrom "GET" "https://b.com") freshResponse id).res ∧
    (setCorsHeaders { config := configStarA, policy := .ALLOW_SPECIFIC } freshResponse
      ((requestFrom "GET" "https://b.com").getHeader "Origin")).header
        "Access-Control-Allow-Origin" = some "*" :=
  ⟨by decide,
    (wildcard_specific_as_allow_all configStarA (requestFrom "GET" "https://b.com")
      freshResponse id (by decide)).1,
    (wildcard_specific_as_allow_all configStarA (requestFrom "GET" "https://b.com")
      freshResponse id (by decide)).2.2.2.2⟩

/-- C18: `setPolicy p` for each `p` other than `ALLOW_ALL` changes the policy and
nothing else, the allow-set included; so the `*` of a default-constructed
middleware survives `setPolicy ALLOW_SPECIFIC` and `allowOrigin a`, and
`shouldAllowRequest b` is still true for every origin `b`. -/
theorem setPolicy_keeps_config (c : Cors) (a b : String) :
    c.setPolicy .ALLOW_SPECIFIC = { c with policy := .ALLOW_SPECIFIC } ∧
    c.setPolicy .ALLOW_SAME_ORIGIN = { c with policy := .ALLOW_SAME_ORIGIN } ∧
    c.setPolicy .BLOCK_ALL = { c with policy := .BLOCK_ALL } ∧
    "*" ∈ ((Cors.new.setPolicy .ALLOW_SPECIFIC).allowOrigin a).config.origins ∧
    ((Cors.new.setPolicy .ALLOW_SPECIFIC).allowOrigin a).policy = .ALLOW_SPECIFIC ∧
    ((Cors.new.setPolicy .ALLOW_SPECIFIC).allowOrigin a).shouldAllowRequest b = true := by
  have hmem : "*" ∈ ((Cors.new.setPolicy .ALLOW_SPECIFIC).allowOrigin a).config.origins := by
    have h : ((Cors.new.setPolicy .ALLOW_SPECIFIC).allowOrigin a).config.origins =
        setInsert ["*"] a := rfl
    rw [h, mem_setInsert]
    exact Or.inr (List.mem_singleton.mpr rfl)
  have hpol : ((Cors.new.setPolicy .ALLOW_SPECIFIC).allowOrigin a).policy =
      .ALLOW_SPECIFIC := rfl
  refine ⟨rfl, rfl, rfl, hmem, hpol, ?_⟩
  by_cases hb : b = "" <;> simp [shouldAllowRequest, isOriginAllowed, hpol, hb, hmem]

/-! ## What the decision depends on, and what a denial leaves alone -/

theorem Handle_status_body (c : Cors) (req : Request) (res : Response)
    (next : Response → Response) :
    (c.Handle req res next).nextCalls =
      (if req.getHeader "Origin" ≠ "" ∧
          c.shouldAllowRequest (req.getHeader "Origin") = false then 0
        else if req.method = "OPTIONS" then 0 else 1) ∧
    ∃ r : Response,
      r.statusCode =
        (if req.getHeader "Origin" ≠ "" ∧
            c.shouldAllowRequest (req.getHeader "Origin") = false then 403
          else if req.method = "OPTIONS" then 204 else res.statusCode) ∧
      r.body =
        (if req.getHeader "Origin" ≠ "" ∧
            c.shouldAllowRequest (req.getHeader "Origin") = false then
          "CORS: Origin not allowed"
        else res.body) ∧
      (c.Handle req res next).res =
        (if req.getHeader "Origin" ≠ "" ∧
            c.shouldAllowRequest (req.getHeader "Origin") = false then r
          else if req.method = "OPTIONS" then r else next r) := by
  by_cases hd : req.getHeader "Origin" ≠ "" ∧
      c.shouldAllowRequest (req.getHeader "Origin") = false
  · rw [Handle_denied c req res next hd.1 hd.2]
    refine ⟨?_, res.send 403 "CORS: Origin not allowed", ?_, ?_, ?_⟩
    all_goals rw [if_pos hd]
    all_goals rfl
  · have hallow : req.getHeader "Origin" = "" ∨
        c.shouldAllowRequest (req.getHeader "Origin") = true := by
      by_cases he : req.getHeader "Origin" = ""
      · exact Or.inl he
      · right
        cases h : c.shouldAllowRequest (req.getHeader "Origin")
        · exact absurd ⟨he, h⟩ hd
        · rfl
    rw [Handle_allowed c req res next hallow]
    by_cases hm : req.method = "OPTIONS"
    · refine ⟨?_, { c.setCorsHeaders res (req.getHeader "Origin") with statusCode := 204 },
        ?_, ?_, ?_⟩
      · rw [if_neg hd, if_pos hm, if_pos hm]
      · rw [if_neg hd, if_pos hm]
      · rw [if_neg hd]
        exact body_setCorsHeaders c res _
      · rw [if_neg hd, if_pos hm, if_pos hm]
    · refine ⟨?_, c.setCorsHeaders res (req.getHeader "Origin"), ?_, ?_, ?_⟩
      · rw [if_neg hd, if_neg hm, if_neg hm]
      · rw [if_neg hd, if_neg hm]
        exact statusCode_setCorsHeaders c res _
      · rw [if_neg hd]
        exact body_setCorsHeaders c res _
      · rw [if_neg hd, if_neg hm, if_neg hm]

/-- C19: two middleware states that agree on the policy and on the allow-set, but
may differ in the methods, allow-headers and every other field, treat every
request alike: `Handle` invokes the continuation the same number of times, and
the response it writes has the same status code and the same body (read off with
the identity continuation, and, for any continuation whose status and body
depend only on the status and body it finds, off the final response).  In
particular removing the request's method from the methods set changes neither
the decision nor the number of continuation calls. -/
theorem Handle_ignores_method_sets (c1 c2 : Cors) (req : Request) (res : Response)
    (next : Response → Response)
    (hp : c1.policy = c2.policy)
    (ho : ∀ x, x ∈ c1.config.origins ↔ x ∈ c2.config.origins) :
    (c1.Handle req res next).nextCalls = (c2.Handle req res next).nextCalls ∧
    (c1.Handle req res id).res.statusCode = (c2.Handle req res id).res.statusCode ∧
    (c1.Handle req res id).res.body = (c2.Handle req res id).res.body ∧
    ((∀ r1 r2 : Response, r1.statusCode = r2.statusCode → r1.body = r2.body →
        (next r1).statusCode = (next r2).statusCode ∧ (next r1).body = (next r2).body) →
      (c1.Handle req res next).res.statusCode = (c2.Handle req res next).res.statusCode ∧
      (c1.Handle req res next).res.body = (c2.Handle req res next).res.body) ∧
    (c1.removeMethod req.method).isMethodAllowed req.method = false ∧
    ((c1.removeMethod req.method).Handle req res next).nextCalls =
      (c1.Handle req res next).nextCalls ∧
    (c1.removeMethod req.method).shouldAllowRequest (req.getHeader "Origin") =
      c1.shouldAllowRequest (req.getHeader "Origin") := by
  have hs := shouldAllowRequest_congr c1 c2 hp ho (req.getHeader "Origin")
  have key : ∀ k : Response → Response,
      (∀ r1 r2 : Response, r1.statusCode = r2.statusCode → r1.body = r2.body →
        (k r1).statusCode = (k r2).statusCode ∧ (k r1).body = (k r2).body) →
      (c1.Handle req res k).res.statusCode = (c2.Handle req res k).res.statusCode ∧
      (c1.Handle req res k).res.body = (c2.Handle req res k).res.body := by
    intro k hk
    obtain ⟨_, r1, hs1, hb1, hr1⟩ := Handle_status_body c1 req res k
    obtain ⟨_, r2, hs2, hb2, hr2⟩ := Handle_status_body c2 req res k
    rw [hs] at hs1 hb1 hr1
    have hst : r1.statusCode = r2.statusCode := hs1.trans hs2.symm
    have hbd : r1.body = r2.body := hb1.trans hb2.symm
    rw [hr1, hr2]
    split_ifs
    · exact ⟨hst, hbd⟩
    · exact ⟨hst, hbd⟩
    · exact hk r1 r2 hst hbd
  have hid := key id (fun r1 r2 h1 h2 => ⟨h1, h2⟩)
  refine ⟨?_, hid.1, hid.2, key next, ?_, ?_, rfl⟩
  · rw [(Handle_status_body c1 req res next).1, (Handle_status_body c2 req res next).1, hs]
  · simp [isMethodAllowed, removeMethod, setErase]
  · rw [(Handle_status_body (c1.removeMethod req.method) req res next).1,
      (Handle_status_body c1 req res next).1]
    rfl

theorem Handle_ignores_method_sets_witness :
    (Cors.ofConfig configA).policy = ((Cors.ofConfig configA).removeMethod "GET").policy ∧
    ((Cors.ofConfig configA).removeMethod "GET").isMethodAllowed "GET" = false ∧
    ((Cors.ofConfig configA).removeMethod "GET").shouldAllowRequest "https://a.com" = true ∧
    ((Cors.ofConfig configA).Handle (requestFrom "GET" "https://a.com") freshResponse
      id).nextCalls = 1 ∧
    ((Cors.ofConfig configA).Handle (requestFrom "GET" "https://a.com") freshResponse
      id).nextCalls =
    (((Cors.ofConfig configA).removeMethod "GET").Handle
      (requestFrom "GET" "https://a.com") freshResponse id).nextCalls :=
  ⟨rfl, by decide, by decide, by decide,
    (Handle_ignores_method_sets (Cors.ofConfig configA)
      ((Cors.ofConfig configA).removeMethod "GET") (requestFrom "GET" "https://a.com")
      freshResponse id rfl (fun _ => Iff.rfl)).1⟩

theorem Handle_cors (c : Cors) (req : Request) (res : Response)
    (next : Response → Response) : (c.Handle req res next).cors = c := by
  unfold Handle
  simp only []
  split_ifs <;> rfl

/-- C20: for every state and every request whatsoever, `Handle` leaves the
middleware state, policy and configuration, unchanged; and a denied request
gets no CORS header: when the `Origin` header is non-empty and
`shouldAllowRequest` rejects it, the response headers are exactly those of the
incoming response, so each of the six `Access-Control-*` headers is as it
was. -/
theorem Handle_denied_frame (c : Cors) (req : Request) (res : Response)
    (next : Response → Response) :
    (c.Handle req res next).cors = c ∧
    (c.Handle req res next).cors.policy = c.policy ∧
    (c.Handle req res next).cors.config = c.config ∧
    (req.getHeader "Origin" ≠ "" →
      c.shouldAllowRequest (req.getHeader "Origin") = false →
        (c.Handle req res next).res.headers = res.headers ∧
        (c.Handle req res next).res.header "Access-Control-Allow-Origin" =
          res.header "Access-Control-Allow-Origin" ∧
        (c.Handle req res next).res.header "Access-Control-Allow-Methods" =
          res.header "Access-Control-Allow-Methods" ∧
        (c.Handle req res next).res.header "Access-Control-Allow-Headers" =
          res.header "Access-Control-Allow-Headers" ∧
        (c.Handle req res next).res.header "Access-Control-Allow-Credentials" =
          res.header "Access-Control-Allow-Credentials" ∧
        (c.Handle req res next).res.header "Access-Control-Max-Age" =
          res.header "Access-Control-Max-Age" ∧
        (c.Handle req res next).res.header "Access-Control-Expose-Headers" =
          res.header "Access-Control-Expose-Headers") := by
  refine ⟨Handle_cors c req res next, ?_, ?_, ?_⟩
  · rw [Handle_cors]
  · rw [Handle_cors]
  · intro hne hdeny
    rw [Handle_denied c req res next hne hdeny]
    exact ⟨rfl, rfl, rfl, rfl, rfl, rfl, rfl⟩

theorem Handle_denied_frame_witness :
    (Cors.new.Handle (requestFrom "GET" "https://b.com") freshResponse id).cors =
      Cors.new ∧
    ((Cors.ofConfig configA).Handle (requestFrom "GET" "https://b.com") freshResponse
      id).cors = Cors.ofConfig configA ∧
    (requestFrom "GET" "https://b.com").getHeader "Origin" ≠ "" ∧
    (Cors.ofConfig configA).shouldAllowRequest
      ((requestFrom "GET" "https://b.com").getHeader "Origin") = false ∧
    ((Cors.ofConfig configA).Handle (requestFrom "GET" "https://b.com") freshResponse
      id).res.headers = freshResponse.headers :=
  ⟨(Handle_denied_frame Cors.new (requestFrom "GET" "https://b.com") freshResponse id).1,
    (Handle_denied_frame (Cors.ofConfig configA) (requestFrom "GET" "https://b.com")
      freshResponse id).1,
    by decide, by decide,
    ((Handle_denied_frame (Cors.ofConfig configA) (requestFrom "GET" "https://b.com")
      freshResponse id).2.2.2 (by decide) (by decide)).1⟩

end Nerva
